import Mathlib

/-!
# Verification of the `twitter_bot` rate-limiting core

A shallow embedding of `src/twitter_bot/rate_limiter.py` (class `RateLimiter`)
and the persistence helpers it uses from `src/twitter_bot/utils.py`.

Modelling conventions:
* Instants (`datetime`) are integer seconds; `timedelta(hours=h)` is `h * 3600`
  seconds, the 30-minute error cooldown is `1800` seconds and the 7-day
  retention window is `604800` seconds.
* Fractional multipliers and delay bounds are rationals (`ℚ`).
* Each call of Python's `random.random()` is one value of an explicit stream
  `rand : ℕ → ℚ` (values in `[0,1)`), consumed left to right with an index.
* `deque(maxlen=10000)` is a list together with the explicit eviction
  functions `dequeAppend` / `dequeTrunc`.
* The `try/except` wrappers in the Python methods catch exceptions that the
  embedded (total, pure) bodies cannot raise; they are therefore not
  represented.
-/

namespace TwitterBot

/-- An entry of `self.actions_history`: the dict built in
`RateLimiter.record_action` (`type`, `success`, `timestamp`, `metadata`);
the metadata mapping is kept as an opaque blob. -/
structure ActionRecord where
  type : String
  success : Bool
  timestamp : Int
  metadata : String
  deriving Repr, DecidableEq

/-- The rate-limit and delay configuration read in `RateLimiter.__init__`,
with the default values from the source. -/
structure RateConfig where
  max_actions_per_hour : ℕ := 12
  max_actions_per_day : ℕ := 100
  max_likes_per_hour : ℕ := 8
  max_replies_per_hour : ℕ := 3
  max_retweets_per_hour : ℕ := 2
  delay_between_actions : ℚ × ℚ := (60, 600)
  delay_after_error : ℚ × ℚ := (900, 1800)
  deriving Repr, DecidableEq

/-- The error-cooldown state of the limiter: `self.consecutive_errors` and
`self.last_error_time`. -/
structure ErrState where
  consecutive_errors : ℕ
  last_error_time : Option Int
  deriving Repr, DecidableEq

/-- `deque.append` on a deque with `maxlen`: append on the right, evicting
from the left when the bound is exceeded. -/
def dequeAppend (maxlen : ℕ) (xs : List α) (a : α) : List α :=
  let ys := xs ++ [a]
  if maxlen < ys.length then ys.drop (ys.length - maxlen) else ys

/-- `deque(iterable, maxlen)`: building a bounded deque from a list keeps the
last `maxlen` elements. -/
def dequeTrunc (maxlen : ℕ) (xs : List α) : List α :=
  xs.drop (xs.length - maxlen)

/-- The membership test of `RateLimiter._get_actions_in_timeframe`:
`action['timestamp'] > cutoff` and, when a type filter is given,
`action['type'] == action_type`. -/
def matchesTimeframe (now : Int) (hours : ℕ) (action_type : Option String)
    (a : ActionRecord) : Bool :=
  decide (now - (hours : Int) * 3600 < a.timestamp) &&
    (match action_type with
     | none => true
     | some t => a.type == t)

/-- `RateLimiter._get_actions_in_timeframe`: count history entries newer than
`now - hours`, optionally restricted to one action type. -/
def getActionsInTimeframe (now : Int) (history : List ActionRecord)
    (hours : ℕ) (action_type : Option String) : ℕ :=
  (history.filter (matchesTimeframe now hours action_type)).length

/-- The hard-coded quiet periods set in `RateLimiter._initialize_patterns`:
11 PM - 6 AM and the lunch break. -/
def quietPeriods : List (ℕ × ℕ) := [(23, 6), (12, 13)]

/-- The quiet-period loop at the end of `RateLimiter.can_perform_action`:
for each period containing the current hour (ranges with `start > end` wrap
past midnight) one `random.random()` value is drawn, and a draw `< 0.7`
denies the action.  `i` is the index of the next unused random draw. -/
def quietDenyFrom (hour : ℕ) (rand : ℕ → ℚ) : List (ℕ × ℕ) → ℕ → Bool
  | [], _ => false
  | (qs, qe) :: ps, i =>
    if qe < qs then
      if qs ≤ hour || hour ≤ qe then
        if rand i < 7/10 then true else quietDenyFrom hour rand ps (i + 1)
      else quietDenyFrom hour rand ps i
    else
      if qs ≤ hour && hour ≤ qe then
        if rand i < 7/10 then true else quietDenyFrom hour rand ps (i + 1)
      else quietDenyFrom hour rand ps i

/-- The quiet-period check of `can_perform_action` on the configured
`quietPeriods`, with the random stream starting at index 0. -/
def quietDeny (hour : ℕ) (rand : ℕ → ℚ) : Bool :=
  quietDenyFrom hour rand quietPeriods 0

/-- The per-type branch of `can_perform_action`: `like`, `reply` and
`retweet` are checked against their own hourly caps; any other type falls
through. -/
def subtypeDeny (cfg : RateConfig) (now : Int) (history : List ActionRecord)
    (action_type : String) : Bool :=
  if action_type == "like" then
    cfg.max_likes_per_hour ≤ getActionsInTimeframe now history 1 (some "like")
  else if action_type == "reply" then
    cfg.max_replies_per_hour ≤ getActionsInTimeframe now history 1 (some "reply")
  else if action_type == "retweet" then
    cfg.max_retweets_per_hour ≤ getActionsInTimeframe now history 1 (some "retweet")
  else false

/-- Steps 2-5 of `RateLimiter.can_perform_action` (everything after the
error-cooldown block): daily limit, hourly limit, per-type hourly limit,
quiet-period suppression.  `hour` is `datetime.now().hour`. -/
def canPerformLimits (cfg : RateConfig) (history : List ActionRecord)
    (now : Int) (hour : ℕ) (rand : ℕ → ℚ) (action_type : String) : Bool :=
  if cfg.max_actions_per_day ≤ getActionsInTimeframe now history 24 none then
    false
  else if cfg.max_actions_per_hour ≤ getActionsInTimeframe now history 1 none then
    false
  else if subtypeDeny cfg now history action_type then
    false
  else if quietDeny hour rand then
    false
  else true

/-- `RateLimiter.can_perform_action`.  Returns the permission bit together
with the updated error state: when `consecutive_errors >= 5` and the last
failure is less than 30 minutes old the action is denied; once the cooldown
has elapsed (or no failure time is recorded) the error counter is reset to 0
as a side effect and the remaining limit checks run. -/
def canPerformAction (cfg : RateConfig) (st : ErrState)
    (history : List ActionRecord) (now : Int) (hour : ℕ) (rand : ℕ → ℚ)
    (action_type : String) : Bool × ErrState :=
  if 5 ≤ st.consecutive_errors then
    match st.last_error_time with
    | some t =>
      if now - t < 1800 then (false, st)
      else
        (canPerformLimits cfg history now hour rand action_type,
         { st with consecutive_errors := 0 })
    | none =>
      (canPerformLimits cfg history now hour rand action_type,
       { st with consecutive_errors := 0 })
  else (canPerformLimits cfg history now hour rand action_type, st)

/-- `RateLimiter.record_action`: append the new record to the bounded
history, update the error state (a failure increments `consecutive_errors`
and stamps `last_error_time`; a success resets both), and report whether this
call triggers `_save_actions_history` (`len(history) % 10 == 0`). -/
def recordAction (st : ErrState) (history : List ActionRecord)
    (action_type : String) (success : Bool) (now : Int) (metadata : String) :
    ErrState × List ActionRecord × Bool :=
  let history' := dequeAppend 10000 history
    { type := action_type, success := success, timestamp := now,
      metadata := metadata }
  let st' : ErrState :=
    if success then { consecutive_errors := 0, last_error_time := none }
    else { consecutive_errors := st.consecutive_errors + 1,
           last_error_time := some now }
  (st', history', history'.length % 10 == 0)

/-- A sequence of `record_action(action_type, success=False)` calls at the
given instants, threading state and history. -/
def recordFailures (st : ErrState) (history : List ActionRecord)
    (action_type : String) : List Int → ErrState × List ActionRecord
  | [] => (st, history)
  | t :: ts =>
    let r := recordAction st history action_type false t ""
    recordFailures r.1 r.2.1 action_type ts

/-- The base multiplier table of `RateLimiter._generate_daily_pattern`,
including the chained comparison `23 <= hour <= 5` of the source, which reads
`23 ≤ hour ∧ hour ≤ 5`. -/
def basePatternMultiplier (hour : ℕ) : ℚ :=
  if 6 ≤ hour ∧ hour ≤ 9 then 3/2
  else if 12 ≤ hour ∧ hour ≤ 13 then 4/5
  else if 17 ≤ hour ∧ hour ≤ 22 then 9/5
  else if 23 ≤ hour ∧ hour ≤ 5 then 3/10
  else 1

/-- `RateLimiter._generate_daily_pattern`: for each hour the base multiplier
times the jitter `0.8 + random.random() * 0.4`; `rand h` is the draw used for
hour `h`. -/
def generateDailyPattern (rand : ℕ → ℚ) : List ℚ :=
  (List.range 24).map (fun hour =>
    basePatternMultiplier hour * (4/5 + rand hour * (2/5)))

/-- `RateLimiter._calculate_dynamic_delay`: start from the configured
`between_actions` range, pick a load factor from the last-hour count
(`> 80%` of the hourly cap: 1.5, `< 20%`: 0.7, else 1.0), multiply by
`2.0 - activity_multiplier`, then bound the minimum below by 10 s and the
maximum above by 1800 s. -/
def calculateDynamicDelay (cfg : RateConfig) (history : List ActionRecord)
    (now : Int) (activity_multiplier : ℚ) : ℚ × ℚ :=
  let recent : ℚ := (getActionsInTimeframe now history 1 none : ℚ)
  let loadFactor : ℚ :=
    if (cfg.max_actions_per_hour : ℚ) * (4/5) < recent then 3/2
    else if recent < (cfg.max_actions_per_hour : ℚ) * (1/5) then 7/10
    else 1
  let multiplier := loadFactor * (2 - activity_multiplier)
  let min_delay := cfg.delay_between_actions.1 * multiplier
  let max_delay := cfg.delay_between_actions.2 * multiplier
  (max 10 min_delay, min 1800 max_delay)

/-- The delay range sampled by `RateLimiter.wait_after_error`: both bounds of
the configured `after_error` range scaled by
`1.0 + consecutive_errors * 0.5`. -/
def waitAfterErrorRange (cfg : RateConfig) (consecutive_errors : ℕ) : ℚ × ℚ :=
  let multiplier : ℚ := 1 + (consecutive_errors : ℚ) * (1/2)
  (cfg.delay_after_error.1 * multiplier, cfg.delay_after_error.2 * multiplier)

/-- The timestamp slot of a persisted action.  Python's stdlib pair
`datetime.isoformat` / `datetime.fromisoformat` is modelled at the level of
its contract: a well-formed ISO-8601 string is represented by the instant it
denotes (`iso`), a string `fromisoformat` rejects by `malformed`, and an
absent or `None` field by `missing`. -/
inductive StoredTs where
  | iso (t : Int)
  | malformed (s : String)
  | missing
  deriving Repr, DecidableEq

/-- `utils.parse_timestamp`: `datetime.fromisoformat` wrapped so that any
parse failure yields `None`.  The falsy check `if timestamp_str:` in the load
loop skips `missing` before parsing; an unparsable string is also dropped, so
both map to `none`. -/
def parseTimestamp : StoredTs → Option Int
  | .iso t => some t
  | .malformed _ => none
  | .missing => none

/-- One element of the persisted `"actions"` array. -/
structure StoredAction where
  type : String
  success : Bool
  timestamp : StoredTs
  metadata : String
  deriving Repr, DecidableEq

/-- The persisted JSON document written by `_save_actions_history`:
`actions`, `last_updated` and `total_actions`. -/
structure StoreData where
  actions : List StoredAction
  last_updated : Int
  total_actions : ℕ
  deriving Repr, DecidableEq

/-- Serialization of one in-memory record in `_save_actions_history`:
`action.copy()` with the `datetime` timestamp replaced by its ISO form. -/
def saveRecord (a : ActionRecord) : StoredAction :=
  { type := a.type, success := a.success, timestamp := .iso a.timestamp,
    metadata := a.metadata }

/-- `RateLimiter._save_actions_history`: serialize every in-memory record
and write the current time and the action count alongside. -/
def saveActionsHistory (history : List ActionRecord) (now : Int) : StoreData :=
  { actions := history.map saveRecord,
    last_updated := now,
    total_actions := history.length }

/-- The first loop of `_load_actions_history`, walking the persisted actions
from the accumulated deque `acc`: an action whose timestamp is present and
parses is appended into the bounded deque, any other is skipped. -/
def loadParsedInto (acc : List ActionRecord) : List StoredAction → List ActionRecord
  | [] => acc
  | a :: rest =>
    match parseTimestamp a.timestamp with
    | some t =>
      loadParsedInto
        (dequeAppend 10000 acc
          { type := a.type, success := a.success, timestamp := t,
            metadata := a.metadata }) rest
    | none => loadParsedInto acc rest

/-- The parsing loop of `_load_actions_history` started from the empty
history the constructor installs. -/
def loadParsedActions (actions : List StoredAction) : List ActionRecord :=
  loadParsedInto [] actions

/-- `RateLimiter._load_actions_history`: a missing, corrupt or empty store
(`load_json_file` returning the `{}` default, or a falsy document) yields an
empty history; otherwise parse the records, drop entries at least 7 days old,
and rebuild the bounded deque. -/
def loadActionsHistory (store : Option StoreData) (now : Int) :
    List ActionRecord :=
  match store with
  | none => []
  | some data =>
    let loaded := loadParsedActions data.actions
    dequeTrunc 10000 (loaded.filter (fun a => decide (now - 604800 < a.timestamp)))

/-! ## Scenario configurations and histories used by the claims -/

/-- The configuration of C3's scenario: `max_likes_per_hour = 2`, every
other setting at its default. -/
def likeScenarioConfig : RateConfig := { max_likes_per_hour := 2 }

/-- C3's scenario history: two successful likes recorded at t = 0. -/
def twoLikes : List ActionRecord :=
  [{ type := "like", success := true, timestamp := 0, metadata := "" },
   { type := "like", success := true, timestamp := 0, metadata := "" }]

/-- A preloaded history of 9 records, as left by `_load_actions_history`. -/
def nineRecords : List ActionRecord :=
  List.replicate 9 { type := "like", success := true, timestamp := 0, metadata := "" }

/-- The delay computation C7 describes, written from the claim's words:
load factor 1.5 when the last-hour count is at least 80% of the hourly cap,
0.7 when below 20%, 1.0 otherwise; the range further multiplied by
`2.0 − activity_multiplier`; both resulting bounds clamped into
`[10 s, 1800 s]`. -/
def dynamicDelayClaim (cfg : RateConfig) (history : List ActionRecord)
    (now : Int) (activity_multiplier : ℚ) : ℚ × ℚ :=
  let recent : ℚ := (getActionsInTimeframe now history 1 none : ℚ)
  let loadFactor : ℚ :=
    if (cfg.max_actions_per_hour : ℚ) * (4/5) ≤ recent then 3/2
    else if recent < (cfg.max_actions_per_hour : ℚ) * (1/5) then 7/10
    else 1
  let multiplier := loadFactor * (2 - activity_multiplier)
  (min 1800 (max 10 (cfg.delay_between_actions.1 * multiplier)),
   min 1800 (max 10 (cfg.delay_between_actions.2 * multiplier)))

/-- C7 as amended: the load factor is 1.5 only when the last-hour count
strictly exceeds 80% of the hourly cap (0.7 strictly below 20%, else 1.0),
and of the resulting bounds only the minimum is clamped from below to 10 s
and only the maximum from above to 1800 s. -/
def dynamicDelayAmended (cfg : RateConfig) (history : List ActionRecord)
    (now : Int) (activity_multiplier : ℚ) : ℚ × ℚ :=
  let recent : ℚ := (getActionsInTimeframe now history 1 none : ℚ)
  let loadFactor : ℚ :=
    if (cfg.max_actions_per_hour : ℚ) * (4/5) < recent then 3/2
    else if recent < (cfg.max_actions_per_hour : ℚ) * (1/5) then 7/10
    else 1
  let multiplier := loadFactor * (2 - activity_multiplier)
  (if cfg.delay_between_actions.1 * multiplier < 10 then 10
   else cfg.delay_between_actions.1 * multiplier,
   if 1800 < cfg.delay_between_actions.2 * multiplier then 1800
   else cfg.delay_between_actions.2 * multiplier)

/-- A configuration with an hourly cap of 10, at which 80% of the cap is an
attainable count. -/
def delayCfgA : RateConfig := { max_actions_per_hour := 10 }

/-- A configuration whose `between_actions` minimum exceeds 1800 s after
scaling. -/
def delayCfgB : RateConfig :=
  { max_actions_per_hour := 10, delay_between_actions := (1700, 1750) }

/-- Eight actions inside the trailing hour. -/
def eightActions : List ActionRecord :=
  List.replicate 8 { type := "like", success := true, timestamp := 0, metadata := "" }

/-! ## Helper lemmas -/

theorem getActions_append (now : Int) (h e : List ActionRecord) (hours : ℕ)
    (ty : Option String) :
    getActionsInTimeframe now (h ++ e) hours ty
      = getActionsInTimeframe now h hours ty
        + getActionsInTimeframe now e hours ty := by
  unfold getActionsInTimeframe
  rw [List.filter_append, List.length_append]

theorem subtypeDeny_extend (cfg : RateConfig) (now : Int)
    (h e : List ActionRecord) (ty : String)
    (H : subtypeDeny cfg now h ty = true) :
    subtypeDeny cfg now (h ++ e) ty = true := by
  unfold subtypeDeny at H ⊢
  split_ifs at H ⊢ <;>
    simp_all [getActions_append] <;> omega

theorem canPerformLimits_eq_true (cfg : RateConfig) (h : List ActionRecord)
    (now : Int) (hour : ℕ) (rand : ℕ → ℚ) (ty : String) :
    canPerformLimits cfg h now hour rand ty = true ↔
      getActionsInTimeframe now h 24 none < cfg.max_actions_per_day ∧
      getActionsInTimeframe now h 1 none < cfg.max_actions_per_hour ∧
      subtypeDeny cfg now h ty = false ∧
      quietDeny hour rand = false := by
  unfold canPerformLimits
  split_ifs with h1 h2 h3 h4
  · simp only [false_iff]; rintro ⟨a, -, -, -⟩; omega
  · simp only [false_iff]; rintro ⟨-, a, -, -⟩; omega
  · simp only [false_iff]; rintro ⟨-, -, a, -⟩; rw [h3] at a; exact Bool.noConfusion a
  · simp only [false_iff]; rintro ⟨-, -, -, a⟩; rw [h4] at a; exact Bool.noConfusion a
  · simp only [true_iff]
    exact ⟨by omega, by omega, Bool.eq_false_iff.mpr h3, Bool.eq_false_iff.mpr h4⟩

theorem canPerformLimits_extend (cfg : RateConfig) (h e : List ActionRecord)
    (now : Int) (hour : ℕ) (rand : ℕ → ℚ) (ty : String)
    (H : canPerformLimits cfg (h ++ e) now hour rand ty = true) :
    canPerformLimits cfg h now hour rand ty = true := by
  rw [canPerformLimits_eq_true] at H ⊢
  obtain ⟨a, b, c, q⟩ := H
  rw [getActions_append] at a b
  refine ⟨by omega, by omega, ?_, q⟩
  cases hs : subtypeDeny cfg now h ty
  · rfl
  · rw [subtypeDeny_extend cfg now h e ty hs] at c
    exact absurd c (by simp)

theorem canPerform_fst_of_limits (cfg : RateConfig) (st : ErrState)
    (h : List ActionRecord) (now : Int) (hour : ℕ) (rand : ℕ → ℚ)
    (ty : String) (H : canPerformLimits cfg h now hour rand ty = false) :
    (canPerformAction cfg st h now hour rand ty).1 = false := by
  obtain ⟨c, lt⟩ := st
  unfold canPerformAction
  rcases lt with _ | t
  · by_cases h5 : 5 ≤ c <;> simp [h5, H]
  · by_cases h5 : 5 ≤ c
    · by_cases hcool : now - t < 1800 <;> simp [h5, hcool, H]
    · simp [h5, H]

theorem limits_false_of_subtypeDeny (cfg : RateConfig)
    (h : List ActionRecord) (now : Int) (hour : ℕ) (rand : ℕ → ℚ)
    (ty : String) (H : subtypeDeny cfg now h ty = true) :
    canPerformLimits cfg h now hour rand ty = false := by
  unfold canPerformLimits
  split_ifs <;> simp_all

theorem dequeAppend_of_lt {α : Type} (m : ℕ) (xs : List α)
    (hlen : xs.length < m) (a : α) : dequeAppend m xs a = xs ++ [a] := by
  unfold dequeAppend
  rw [if_neg]
  simp only [List.length_append, List.length_cons, List.length_nil]
  omega

theorem getActions_map_success (now : Int) (h : List ActionRecord)
    (hours : ℕ) (ty : Option String) (f : ActionRecord → Bool) :
    getActionsInTimeframe now (h.map (fun a => { a with success := f a })) hours ty
      = getActionsInTimeframe now h hours ty := by
  induction h with
  | nil => rfl
  | cons a t ih =>
    unfold getActionsInTimeframe at *
    simp only [List.map_cons, List.filter_cons]
    have he : matchesTimeframe now hours ty { a with success := f a }
        = matchesTimeframe now hours ty a := rfl
    rw [he]
    cases matchesTimeframe now hours ty a <;> simp [ih]

theorem limits_map_success (cfg : RateConfig) (h : List ActionRecord)
    (now : Int) (hour : ℕ) (rand : ℕ → ℚ) (aty : String)
    (f : ActionRecord → Bool) :
    canPerformLimits cfg (h.map (fun a => { a with success := f a })) now hour rand aty
      = canPerformLimits cfg h now hour rand aty := by
  unfold canPerformLimits subtypeDeny
  simp only [getActions_map_success]

/-! ## Claim theorems -/

/-- C10: quota counting ignores the success flag — rewriting every record's
`success` field in a history changes neither any windowed count used by
`can_perform_action` nor the outcome of `can_perform_action` itself, so
failed actions consume quota exactly as successful ones do. -/
theorem countsIgnoreSuccess (now : Int) (h : List ActionRecord) (hours : ℕ)
    (ty : Option String) (f : ActionRecord → Bool) (cfg : RateConfig)
    (st : ErrState) (hour : ℕ) (rand : ℕ → ℚ) (aty : String) :
    getActionsInTimeframe now (h.map (fun a => { a with success := f a })) hours ty
      = getActionsInTimeframe now h hours ty ∧
    canPerformAction cfg st (h.map (fun a => { a with success := f a })) now hour rand aty
      = canPerformAction cfg st h now hour rand aty := by
  refine ⟨getActions_map_success now h hours ty f, ?_⟩
  unfold canPerformAction
  simp only [limits_map_success]

/-- C4: `can_perform_action` is monotone in the history — with the
configuration, error state, clock and random draws fixed, a denial on a
history `h` is preserved on `h` extended with any further records; extra
records can never turn a denial into a permit. -/
theorem canPerform_monotone (cfg : RateConfig) (st : ErrState)
    (h extra : List ActionRecord) (now : Int) (hour : ℕ) (rand : ℕ → ℚ)
    (ty : String)
    (hdeny : (canPerformAction cfg st h now hour rand ty).1 = false) :
    (canPerformAction cfg st (h ++ extra) now hour rand ty).1 = false := by
  by_cases hl : canPerformLimits cfg (h ++ extra) now hour rand ty = true
  · have hh := canPerformLimits_extend cfg h extra now hour rand ty hl
    obtain ⟨c, lt⟩ := st
    unfold canPerformAction at hdeny ⊢
    rcases lt with _ | t
    · by_cases h5 : 5 ≤ c <;> simp [h5, hh] at hdeny ⊢
    · by_cases h5 : 5 ≤ c
      · by_cases hcool : now - t < 1800
        · simp [h5, hcool]
        · simp [h5, hcool, hh] at hdeny
      · simp [h5, hh] at hdeny
  · exact canPerform_fst_of_limits cfg st (h ++ extra) now hour rand ty
      (Bool.eq_false_iff.mpr hl)

/-- Witness for C4: a cooldown denial on the empty history persists after a
record is appended. -/
theorem canPerform_monotone_witness :
    (canPerformAction {} ⟨5, some 0⟩
      ([] ++ [{ type := "like", success := true, timestamp := 0, metadata := "" }])
      0 10 (fun _ => 1) "like").1 = false :=
  canPerform_monotone {} ⟨5, some 0⟩ []
    [{ type := "like", success := true, timestamp := 0, metadata := "" }]
    0 10 (fun _ => 1) "like" rfl

theorem recordFailures_state (st0 : ErrState) (h0 : List ActionRecord)
    (aty : String) (t1 t2 t3 t4 t5 : Int) :
    (recordFailures st0 h0 aty [t1, t2, t3, t4, t5]).1
      = ⟨st0.consecutive_errors + 5, some t5⟩ := by
  simp only [recordFailures, recordAction]
  simp [ErrState.mk.injEq]
  try omega

/-- C1: after 5 consecutive failed `record` calls the error counter is at
least 5 and the last-error time is the last failure instant; while less than
30 minutes (1800 s) have elapsed since that failure, `can_perform_action`
denies every action type; once 30 minutes have elapsed the check resets
`consecutive_errors` to 0 as a side effect and permits exactly when no other
limit applies (i.e. it returns the outcome of the remaining limit checks). -/
theorem errorCooldown (cfg : RateConfig) (st0 : ErrState)
    (h0 : List ActionRecord) (aty ty : String) (t1 t2 t3 t4 t5 now : Int)
    (hour : ℕ) (rand : ℕ → ℚ) :
    5 ≤ (recordFailures st0 h0 aty [t1, t2, t3, t4, t5]).1.consecutive_errors ∧
    (recordFailures st0 h0 aty [t1, t2, t3, t4, t5]).1.last_error_time = some t5 ∧
    (now - t5 < 1800 →
      (canPerformAction cfg (recordFailures st0 h0 aty [t1, t2, t3, t4, t5]).1
          (recordFailures st0 h0 aty [t1, t2, t3, t4, t5]).2
          now hour rand ty).1 = false) ∧
    (1800 ≤ now - t5 →
      canPerformAction cfg (recordFailures st0 h0 aty [t1, t2, t3, t4, t5]).1
          (recordFailures st0 h0 aty [t1, t2, t3, t4, t5]).2 now hour rand ty
        = (canPerformLimits cfg (recordFailures st0 h0 aty [t1, t2, t3, t4, t5]).2
            now hour rand ty,
           { consecutive_errors := 0, last_error_time := some t5 })) := by
  rw [recordFailures_state st0 h0 aty t1 t2 t3 t4 t5]
  refine ⟨by show 5 ≤ st0.consecutive_errors + 5; omega, rfl, ?_, ?_⟩
  · intro hcool
    unfold canPerformAction
    simp [show 5 ≤ st0.consecutive_errors + 5 by omega, hcool]
  · intro hel
    unfold canPerformAction
    simp [show 5 ≤ st0.consecutive_errors + 5 by omega,
      show ¬(now - t5 < 1800) by omega]

/-- Witness for C1: five failures at t = 0, checked at t = 100 s (denied)
and at t = 1800 s (decided by the remaining limits, counter reset). -/
theorem errorCooldown_witness :
    (canPerformAction {} (recordFailures ⟨0, none⟩ [] "like" [0, 0, 0, 0, 0]).1
        (recordFailures ⟨0, none⟩ [] "like" [0, 0, 0, 0, 0]).2
        100 10 (fun _ => 1) "like").1 = false ∧
    canPerformAction {} (recordFailures ⟨0, none⟩ [] "like" [0, 0, 0, 0, 0]).1
        (recordFailures ⟨0, none⟩ [] "like" [0, 0, 0, 0, 0]).2
        1800 10 (fun _ => 1) "like"
      = (canPerformLimits {} (recordFailures ⟨0, none⟩ [] "like" [0, 0, 0, 0, 0]).2
          1800 10 (fun _ => 1) "like",
         { consecutive_errors := 0, last_error_time := some 0 }) :=
  ⟨(errorCooldown {} ⟨0, none⟩ [] "like" "like" 0 0 0 0 0 100 10
      (fun _ => 1)).2.2.1 (by omega),
   (errorCooldown {} ⟨0, none⟩ [] "like" "like" 0 0 0 0 0 1800 10
      (fun _ => 1)).2.2.2 (by omega)⟩

/-- C3: for the tracked sub-types (`like`, `reply`, `retweet`), a trailing
one-hour count at or above the type's hourly cap makes `can_perform_action`
deny; concretely, with `max_likes_per_hour = 2` and two likes at t = 0 a
`like` is denied at t = +10 min and allowed at t = +61 min (the scenario
outcome holds for every random stream, hour 10 lying in no quiet period). -/
theorem perTypeHourlyCap (cfg : RateConfig) (st : ErrState)
    (h : List ActionRecord) (now : Int) (hour : ℕ) (rand : ℕ → ℚ)
    (ty : String)
    (hcap : (ty = "like" ∧
        cfg.max_likes_per_hour ≤ getActionsInTimeframe now h 1 (some "like"))
      ∨ (ty = "reply" ∧
        cfg.max_replies_per_hour ≤ getActionsInTimeframe now h 1 (some "reply"))
      ∨ (ty = "retweet" ∧
        cfg.max_retweets_per_hour ≤ getActionsInTimeframe now h 1 (some "retweet"))) :
    (canPerformAction cfg st h now hour rand ty).1 = false ∧
    (canPerformAction likeScenarioConfig ⟨0, none⟩ twoLikes 600 10 rand "like").1 = false ∧
    (canPerformAction likeScenarioConfig ⟨0, none⟩ twoLikes 3660 10 rand "like").1 = true := by
  refine ⟨?_, rfl, rfl⟩
  apply canPerform_fst_of_limits
  apply limits_false_of_subtypeDeny
  unfold subtypeDeny
  rcases hcap with ⟨rfl, hc⟩ | ⟨rfl, hc⟩ | ⟨rfl, hc⟩ <;> simp [hc]

/-- Witness for C3: the scenario itself instantiates the general cap
statement — two likes at t = 0 deny a `like` at t = +10 min. -/
theorem perTypeHourlyCap_witness :
    (canPerformAction likeScenarioConfig ⟨0, none⟩ twoLikes 600 10
      (fun _ => 1) "like").1 = false :=
  (perTypeHourlyCap likeScenarioConfig ⟨0, none⟩ twoLikes 600 10 (fun _ => 1)
    "like" (Or.inl ⟨rfl, by decide⟩)).1

/-- C6: `wait_after_error` scales both bounds of the configured
`after_error` range by `1 + 0.5 × consecutive_errors`; after exactly 3
consecutive failures the counter is 3, both bounds equal the base bounds
times 2.5, and (the configured bounds being positive) the sampled range is
strictly larger than the base range. -/
theorem waitAfterError_scaling (cfg : RateConfig) (h0 : List ActionRecord)
    (aty : String) (t1 t2 t3 : Int) (n : ℕ)
    (hmin : 0 < cfg.delay_after_error.1) (hmax : 0 < cfg.delay_after_error.2) :
    waitAfterErrorRange cfg n
      = (cfg.delay_after_error.1 * (1 + (n : ℚ) * (1/2)),
         cfg.delay_after_error.2 * (1 + (n : ℚ) * (1/2))) ∧
    (recordFailures ⟨0, none⟩ h0 aty [t1, t2, t3]).1.consecutive_errors = 3 ∧
    waitAfterErrorRange cfg 3
      = (cfg.delay_after_error.1 * (5/2), cfg.delay_after_error.2 * (5/2)) ∧
    cfg.delay_after_error.1 < (waitAfterErrorRange cfg 3).1 ∧
    cfg.delay_after_error.2 < (waitAfterErrorRange cfg 3).2 := by
  have hw : waitAfterErrorRange cfg 3
      = (cfg.delay_after_error.1 * (5/2), cfg.delay_after_error.2 * (5/2)) := by
    unfold waitAfterErrorRange
    norm_num
  refine ⟨rfl, by simp [recordFailures, recordAction], hw, ?_, ?_⟩
  · rw [hw]
    show cfg.delay_after_error.1 < cfg.delay_after_error.1 * (5/2)
    nlinarith [hmin]
  · rw [hw]
    show cfg.delay_after_error.2 < cfg.delay_after_error.2 * (5/2)
    nlinarith [hmax]

/-- Witness for C6 at the default configuration (`after_error = (900, 1800)`):
three failures leave the counter at 3 and the scaled range strictly exceeds
the base range. -/
theorem waitAfterError_scaling_witness :
    (recordFailures ⟨0, none⟩ [] "like" [0, 0, 0]).1.consecutive_errors = 3 ∧
    ({} : RateConfig).delay_after_error.1 < (waitAfterErrorRange {} 3).1 ∧
    ({} : RateConfig).delay_after_error.2 < (waitAfterErrorRange {} 3).2 :=
  ⟨(waitAfterError_scaling {} [] "like" 0 0 0 3 (by decide) (by decide)).2.1,
   (waitAfterError_scaling {} [] "like" 0 0 0 3 (by decide) (by decide)).2.2.2.1,
   (waitAfterError_scaling {} [] "like" 0 0 0 3 (by decide) (by decide)).2.2.2.2⟩

/-- C2: the night-trough branch of `_generate_daily_pattern` is dead code —
the chained comparison `23 <= hour <= 5` holds for no hour, so hour 23 and
hours 0-5 take the baseline base multiplier 1.0 instead of the 0.3 the
claim (and the source's own `# Night (quiet)` comment) prescribe; with
jitter draw 0 the generated entry for hour 23 is `1.0 * 0.8 = 0.8` rather
than `0.3 * 0.8 = 0.24`.  The peak, dip and baseline rows of the table are
as claimed. -/
theorem nightPattern_bug :
    basePatternMultiplier 23 = 1 ∧ basePatternMultiplier 0 = 1 ∧
    basePatternMultiplier 3 = 1 ∧ basePatternMultiplier 5 = 1 ∧
    (generateDailyPattern (fun _ => 0)).getD 23 0 = 4/5 ∧
    basePatternMultiplier 6 = 3/2 ∧ basePatternMultiplier 9 = 3/2 ∧
    basePatternMultiplier 12 = 4/5 ∧ basePatternMultiplier 13 = 4/5 ∧
    basePatternMultiplier 17 = 9/5 ∧ basePatternMultiplier 22 = 9/5 ∧
    basePatternMultiplier 10 = 1 := by
  refine ⟨?_, ?_, ?_, ?_, ?_, ?_, ?_, ?_, ?_, ?_, ?_, ?_⟩ <;>
    norm_num [basePatternMultiplier, generateDailyPattern,
      List.getD_eq_getElem?_getD, List.getElem?_map, List.getElem?_range]

/-- C8 counterexample: starting from a preloaded history of 9 records, the
very first `record` call triggers `_save_actions_history` (post-append
length 10), and the 10th `record` call (post-append length 19) does not —
so it is not the case that exactly each 10th recorded action persists. -/
theorem periodicSave_counterexample :
    (recordAction ⟨0, none⟩ nineRecords "like" true 0 "").2.2 = true ∧
    (recordAction ⟨0, none⟩
        (nineRecords ++ List.replicate 9
          { type := "like", success := true, timestamp := 0, metadata := "" })
        "like" true 0 "").2.2 = false := by
  decide

/-- C8 amended: every `record` call appends the new record to the history
(bounded at 10,000 entries), and `_save_actions_history` runs exactly on the
calls where the post-append history length is divisible by 10 — which is
every 10th `record` call only when the pre-existing history length is a
multiple of 10. -/
theorem periodicSave_amended (st : ErrState) (h : List ActionRecord)
    (ty : String) (success : Bool) (now : Int) (md : String)
    (hlen : h.length < 10000) :
    (recordAction st h ty success now md).2.1
      = h ++ [{ type := ty, success := success, timestamp := now, metadata := md }] ∧
    ((recordAction st h ty success now md).2.2 = true
      ↔ (h.length + 1) % 10 = 0) := by
  unfold recordAction
  simp only [dequeAppend_of_lt 10000 h hlen]
  refine ⟨by simp, ?_⟩
  simp [List.length_append]

/-- Witness for C8's amended statement on the empty history. -/
theorem periodicSave_amended_witness :
    (recordAction ⟨0, none⟩ [] "like" true 0 "").2.1
      = [] ++ [{ type := "like", success := true, timestamp := 0, metadata := "" }] ∧
    ((recordAction ⟨0, none⟩ [] "like" true 0 "").2.2 = true
      ↔ (([] : List ActionRecord).length + 1) % 10 = 0) :=
  periodicSave_amended ⟨0, none⟩ [] "like" true 0 "" (by decide)

/-- C7 counterexample.  First input: at a count of exactly 80% of the cap
the code keeps load factor 1.0 (its comparison is strict) while the claim
prescribes 1.5.  Second input (load factor 1.5 under both readings): the
code's minimum bound, `1700 × 1.5 × (2 − 0.64) = 3468`, is not clamped down
to 1800.  Third input (activity multiplier 2, so both delays scale by 0):
the code's maximum bound 0 is not clamped up to 10. -/
theorem dynamicDelay_counterexample :
    calculateDynamicDelay delayCfgA eightActions 0 1
      ≠ dynamicDelayClaim delayCfgA eightActions 0 1 ∧
    calculateDynamicDelay delayCfgB nineRecords 0 (16/25)
      ≠ dynamicDelayClaim delayCfgB nineRecords 0 (16/25) ∧
    calculateDynamicDelay {} [] 0 2 ≠ dynamicDelayClaim {} [] 0 2 := by
  refine ⟨?_, ?_, ?_⟩ <;>
    norm_num [calculateDynamicDelay, dynamicDelayClaim, delayCfgA, delayCfgB,
      eightActions, nineRecords, getActionsInTimeframe, matchesTimeframe,
      Prod.ext_iff]

/-- C7 amended, proved: the code's delay range coincides with the amended
description for every configuration, history, instant and activity
multiplier. -/
theorem dynamicDelay_amended (cfg : RateConfig) (history : List ActionRecord)
    (now : Int) (a : ℚ) :
    calculateDynamicDelay cfg history now a
      = dynamicDelayAmended cfg history now a := by
  simp only [calculateDynamicDelay, dynamicDelayAmended, max_def, min_def]
  split_ifs <;> simp_all [Prod.ext_iff] <;> linarith

theorem loadParsedInto_save (h : List ActionRecord) :
    ∀ acc : List ActionRecord, acc.length + h.length ≤ 10000 →
      loadParsedInto acc (h.map saveRecord) = acc ++ h := by
  induction h with
  | nil => intro acc _; simp [loadParsedInto]
  | cons a t ih =>
    intro acc hlen
    simp only [List.map_cons, loadParsedInto, saveRecord, parseTimestamp]
    rw [dequeAppend_of_lt 10000 acc (by simp at hlen ⊢; omega)]
    show loadParsedInto (acc ++ [a]) (t.map saveRecord) = acc ++ a :: t
    rw [ih (acc ++ [a]) (by simp at hlen ⊢; omega)]
    simp

/-- C5: persistence round-trip — saving an in-memory history (of at most the
10,000-record bound) and loading it back reproduces exactly the records
whose timestamps are within the 7-day retention window at load time, in
order; only older entries are dropped. -/
theorem saveLoad_roundtrip (h : List ActionRecord) (saveTime loadTime : Int)
    (hlen : h.length ≤ 10000) :
    loadActionsHistory (some (saveActionsHistory h saveTime)) loadTime
      = h.filter (fun a => decide (loadTime - 604800 < a.timestamp)) := by
  simp only [loadActionsHistory, saveActionsHistory, loadParsedActions]
  rw [loadParsedInto_save h [] (by simpa using hlen)]
  simp only [List.nil_append]
  unfold dequeTrunc
  have hf : (h.filter (fun a => decide (loadTime - 604800 < a.timestamp))).length
      ≤ 10000 := le_trans (List.length_filter_le _ _) hlen
  rw [Nat.sub_eq_zero_of_le hf, List.drop_zero]

/-- Witness for C5: a two-record history, one record inside the window and
one 700,000 s old, loads back as exactly the fresh record. -/
theorem saveLoad_roundtrip_witness :
    loadActionsHistory
      (some (saveActionsHistory
        [{ type := "like", success := true, timestamp := 0, metadata := "" },
         { type := "reply", success := false, timestamp := -700000, metadata := "" }] 5)) 0
      = [{ type := "like", success := true, timestamp := 0, metadata := "" }] := by
  rw [saveLoad_roundtrip
    [{ type := "like", success := true, timestamp := 0, metadata := "" },
     { type := "reply", success := false, timestamp := -700000, metadata := "" }]
    5 0 (by decide)]
  decide

theorem loadParsedInto_skip (b : StoredAction)
    (hbad : parseTimestamp b.timestamp = none) (post : List StoredAction) :
    ∀ (pre : List StoredAction) (acc : List ActionRecord),
      loadParsedInto acc (pre ++ b :: post) = loadParsedInto acc (pre ++ post) := by
  intro pre
  induction pre with
  | nil => intro acc; simp [loadParsedInto, hbad]
  | cons a t ih =>
    intro acc
    simp only [List.cons_append, loadParsedInto]
    cases hp : parseTimestamp a.timestamp <;> simp only [hp] <;> apply ih

/-- C9: `_load_actions_history` is a total function of the persisted store —
a missing or corrupt store yields the empty history, and a persisted record
whose timestamp does not parse is dropped individually: loading a store
containing it gives exactly the result of loading the same store without it,
so every other well-formed record is still loaded. -/
theorem loadResilience (pre post : List StoredAction) (b : StoredAction)
    (lu : Int) (ta : ℕ) (now : Int)
    (hbad : parseTimestamp b.timestamp = none) :
    loadActionsHistory none now = [] ∧
    loadActionsHistory (some ⟨pre ++ b :: post, lu, ta⟩) now
      = loadActionsHistory (some ⟨pre ++ post, lu, ta⟩) now := by
  refine ⟨rfl, ?_⟩
  simp only [loadActionsHistory, loadParsedActions]
  rw [loadParsedInto_skip b hbad post pre []]

/-- Witness for C9: a malformed middle record is dropped and the two
well-formed records around it still load. -/
theorem loadResilience_witness :
    loadActionsHistory none 0 = [] ∧
    loadActionsHistory
      (some ⟨[{ type := "like", success := true, timestamp := .iso 0, metadata := "" }]
        ++ { type := "x", success := true, timestamp := .malformed "oops", metadata := "" }
          :: [{ type := "reply", success := false, timestamp := .iso 1, metadata := "" }],
        0, 3⟩) 0
      = loadActionsHistory
        (some ⟨[{ type := "like", success := true, timestamp := .iso 0, metadata := "" }]
          ++ [{ type := "reply", success := false, timestamp := .iso 1, metadata := "" }],
          0, 3⟩) 0 :=
  loadResilience
    [{ type := "like", success := true, timestamp := .iso 0, metadata := "" }]
    [{ type := "reply", success := false, timestamp := .iso 1, metadata := "" }]
    { type := "x", success := true, timestamp := .malformed "oops", metadata := "" }
    0 3 0 rfl

end TwitterBot
